import Mathlib

/-!
# Verification of `Analyze.py` (ECE Corporate Partnerships analysis script)

Shallow embedding of the pure helper functions and of the stage pipeline of
`src/Analyze.py`, together with theorems settling the claims about them.

Modelling conventions:
* Python `str` is modelled by Lean `String` (internally `List Char`); only the
  ASCII behaviour of Python's `\d`, `str.strip`, `str.lower` is modelled, which
  covers every value the claims mention.
* A missing value (`NaN`) flowing through a column of text is modelled by
  `Option`: `none` is `NaN`.  The floats produced by `parse_fee` are exact
  small integers (`float` of a string of at most 7 digits), so they are
  modelled by `Nat`.
* Python exceptions that escape are modelled by `Except String`.
-/

/-- The whitespace characters stripped by Python's `str.strip()` (ASCII part). -/
def pySpace (c : Char) : Bool :=
  c = ' ' || c = '\t' || c = '\n' || c = '\r' || c = '\x0b' || c = '\x0c'

/-- Python `str.strip()` on a list of characters. -/
def pyStrip (cs : List Char) : List Char :=
  ((cs.dropWhile pySpace).reverse.dropWhile pySpace).reverse

/-- Python `str.lower()` on one character (`Char.toLower` is exactly the ASCII
lowering Python performs on the characters appearing here). -/
def pyLower (cs : List Char) : List Char :=
  cs.map Char.toLower

/-- Python `text.split(",")`: split at every comma; `"".split(",") = [""]`. -/
def splitComma : List Char → List (List Char)
  | [] => [[]]
  | c :: cs =>
    if c = ',' then [] :: splitComma cs
    else
      match splitComma cs with
      | [] => [[c]]
      | s :: ss => (c :: s) :: ss

/-- Python `value.replace(",", "")` (line 166 / 193 of `Analyze.py`). -/
def stripCommas (cs : List Char) : List Char :=
  cs.filter (fun c => c ≠ ',')

/-- `re.search(r"(\d{2,7})", value)` (line 167 / 194): the leftmost position
at which at least two digits start, matched greedily up to seven digits.
Returns the matched group. -/
def searchDigits27 : List Char → Option (List Char)
  | [] => none
  | c :: cs =>
    if c.isDigit && (match cs with | [] => false | d :: _ => d.isDigit) then
      some (((c :: cs).takeWhile (fun x => x.isDigit)).take 7)
    else searchDigits27 cs

/-- Whether the text contains a run of at least two consecutive digits — the
exact condition under which `re.search(r"(\d{2,7})", ·)` finds a match. -/
def hasTwoConsecutiveDigits : List Char → Bool
  | [] => false
  | [_] => false
  | c :: d :: rest => (c.isDigit && d.isDigit) || hasTwoConsecutiveDigits (d :: rest)

/-- The numeric value of a digit string. -/
def natOfDigits (cs : List Char) : Nat :=
  cs.foldl (fun n c => 10 * n + (c.toNat - 48)) 0

/-- Python `float(s)` restricted to the strings fed to it here, as a fallible
conversion: it succeeds exactly on non-empty all-digit strings (which is all
`float` needs to accept for the `ValueError` analysis), yielding their value. -/
def pyFloatOfDigits (cs : List Char) : Option Nat :=
  if cs ≠ [] ∧ cs.all (fun c => c.isDigit) then some (natOfDigits cs) else none

namespace Boxplot

/-- `parse_fee` as defined inside the box-plot stage (lines 161-173):
`NaN ↦ NaN`; otherwise drop commas, search for `\d{2,7}`, convert the match
with `float` returning `NaN` on `ValueError`, and `NaN` when there is no
match. -/
def parse_fee (value : Option String) : Option Nat :=
  match value with
  | none => none
  | some v =>
    let v' := stripCommas v.data
    match searchDigits27 v' with
    | some g =>
      match pyFloatOfDigits g with
      | some x => some x
      | none => none
    | none => none

end Boxplot

namespace Histogram

/-- `parse_fee` as re-defined before the histogram stage (lines 189-200);
its body is the same text as the box-plot one. -/
def parse_fee (value : Option String) : Option Nat :=
  match value with
  | none => none
  | some v =>
    let v' := stripCommas v.data
    match searchDigits27 v' with
    | some g =>
      match pyFloatOfDigits g with
      | some x => some x
      | none => none
    | none => none

end Histogram

/-- `str(value)` applied to a cell that is either a string or `NaN`
(`str(np.nan) = "nan"`). -/
def pyStr (v : Option String) : String :=
  match v with
  | some s => s
  | none => "nan"

/-- `extract_num_tiers` (lines 112-116): `NaN ↦ NaN`, otherwise the length of
`str(value).lower().split(",")`. -/
def extract_num_tiers (value : Option String) : Option Nat :=
  match value with
  | none => none
  | some v => some (splitComma (pyLower v.data)).length

/-- Substring test, `pat in text` of Python: does `pat` occur contiguously? -/
def matchesAt : List Char → List Char → Bool
  | [], _ => true
  | _ :: _, [] => false
  | p :: ps, c :: cs => (p = c) && matchesAt ps cs

/-- `pat in text` (Python substring containment). -/
def containsSub (pat : List Char) : List Char → Bool
  | [] => matchesAt pat []
  | c :: cs => matchesAt pat (c :: cs) || containsSub pat cs

/-- `categorize_level` (lines 220-226): lower-case `str(val)`; if it contains
`"college"` return `"ECE Programs"`, else the departmental label. -/
def categorize_level (val : Option String) : String :=
  let text := pyLower (pyStr val).data
  if containsSub "college".data text then "ECE Programs"
  else "Departmental / General College Programs"

/-- The regex replacement `[\n\r]+` → `" "` of line 22: every maximal run of
newline/carriage-return characters becomes a single space. -/
def collapseNewlines : List Char → List Char
  | [] => []
  | c :: cs =>
    if c = '\n' || c = '\r' then
      match cs with
      | [] => [' ']
      | d :: _ =>
        if d = '\n' || d = '\r' then collapseNewlines cs
        else ' ' :: collapseNewlines cs
    else c :: collapseNewlines cs

/-- The literal replacement `" "` → `"_"` of line 22. -/
def spacesToUnderscores (cs : List Char) : List Char :=
  cs.map (fun c => if c = ' ' then '_' else c)

/-- The column-name cleaner of line 22:
`.str.strip()` then `.str.replace(r"[\n\r]+", " ", regex=True)` then
`.str.replace(" ", "_")`. -/
def cleanColumnName (s : String) : String :=
  String.mk (spacesToUnderscores (collapseNewlines (pyStrip s.data)))

/-!
## Table and pipeline model

The loaded dataframe after the cleaning loop of lines 25-26: every cell of a
text column is a string (a `NaN` cell was turned into the string `"nan"` by
`astype(str)`).  A row is an association list from cleaned column name to
cell text; reading an absent column cell yields `"nan"`.
-/

abbrev Row := List (String × String)

structure Table where
  cols : List String
  rows : List Row

/-- The cell of column `c` in a row (`"nan"` when the key is absent). -/
def lookupCell (r : Row) (c : String) : String :=
  match r.find? (fun kv => kv.1 == c) with
  | some kv => kv.2
  | none => "nan"

/-- Overwrite the cell of column `c` in a row. -/
def setCell (r : Row) (c : String) (v : String) : Row :=
  r.map (fun kv => if kv.1 == c then (kv.1, v) else kv)

/-- Line 37: `df.assign(Corporate_Partners=df["Corporate_Partners"]
.str.split(",")).explode("Corporate_Partners")` — each row becomes one row
per comma-separated (not yet stripped) partner value. -/
def explodeRows (t : Table) : Table :=
  { cols := t.cols,
    rows := t.rows.flatMap (fun r =>
      (splitComma (lookupCell r "Corporate_Partners").data).map
        (fun p => setCell r "Corporate_Partners" (String.mk p))) }

/-- Line 38: `df_expanded["Corporate_Partners"] =
df_expanded["Corporate_Partners"].str.strip()`. -/
def stripPartnersCol (t : Table) : Table :=
  { cols := t.cols,
    rows := t.rows.map (fun r =>
      setCell r "Corporate_Partners"
        (String.mk (pyStrip (lookupCell r "Corporate_Partners").data))) }

/-- The exploded table `df_expanded` of lines 37-38, as a function of `df`. -/
def df_expanded (t : Table) : Table :=
  stripPartnersCol (explodeRows t)

/-- Line 40's message. -/
def corporatePartnersKeyError : String :=
  "The dataset does not have a 'Corporate_Partners' column. Check your CSV headers."

/-- Reading the name `df_expanded` before line 37 has bound it fails. -/
def dfExpandedNameError : String :=
  "NameError: name 'df_expanded' is not defined"

/-- Line 68's test: `"sector" in c.lower() or "industry" in c.lower()`. -/
def isSectorCol (c : String) : Bool :=
  containsSub "sector".data (pyLower c.data)
    || containsSub "industry".data (pyLower c.data)

/-- Line 93's test `not sector_freq.empty`: some row has a comma-separated
sector entry that is non-empty after stripping (lines 75-86). -/
def sectorValuesNonempty (t : Table) (sc : String) : Bool :=
  t.rows.any (fun r =>
    (splitComma (lookupCell r sc).data).any (fun p => !(pyStrip p).isEmpty))

/-- Line 119: `df["Num_Tiers"] = df["Tiers_of_Membership"]
.apply(extract_num_tiers)` — a new column on `df`. -/
def addNumTiers (t : Table) : Table :=
  { cols := t.cols ++ ["Num_Tiers"],
    rows := t.rows.map (fun r =>
      r ++ [("Num_Tiers",
        match extract_num_tiers (some (lookupCell r "Tiers_of_Membership")) with
        | some n => toString n
        | none => "nan")]) }

/-- Line 228: `df["Level_Group"] = df["Program_Level"].apply(categorize_level)`. -/
def addLevelGroup (t : Table) : Table :=
  { cols := t.cols ++ ["Level_Group"],
    rows := t.rows.map (fun r =>
      r ++ [("Level_Group", categorize_level (some (lookupCell r "Program_Level")))]) }

/-- Lines 259-265: is the company list non-empty?  When it is empty,
line 282 computes `range(1, nan + 2)` and the stage dies with a `TypeError`. -/
def companyNamesNonempty (t : Table) : Bool :=
  t.rows.any (fun r =>
    (splitComma (lookupCell r "Corporate_Partners").data).any
      (fun p => !(pyStrip p).isEmpty))

/-- The interpreter state between stages: the two dataframe bindings and the
files written so far.  `df_expanded = none` models the name being unbound. -/
structure Env where
  df : Table
  df_expanded : Option Table
  files : List String

/-- The analysis stages of the script, in source order. -/
inductive Stage
  | explodeCP
  | partners
  | sectors
  | tiers
  | feesBox
  | feesHist
  | levels
  | companies
  | exportCSV
deriving DecidableEq

/-- One stage of the script as a state transformer; an exception aborts the
stage (every modelled exception fires before the stage writes its file, so
the pre-stage state is the state at the abort).  Chart pixel content is not
modelled, only which files are written and how the shared tables evolve:
* `explodeCP` — lines 36-40: bind `df_expanded`, or raise `KeyError`;
* `partners` — lines 45-63: read `df_expanded`, write the chart when a
  `College` column exists, else just print;
* `sectors` — lines 68-105: read `df_expanded.columns`; pick the first
  sector/industry column; the `fillna("")` of line 74 is the identity here
  because every cell is already a string; write the chart when the split,
  stripped, non-empty sector values are non-empty;
* `tiers` — lines 111-154: add `Num_Tiers` to `df` and write the chart when
  `Tiers_of_Membership` exists, else print;
* `feesBox` — lines 159-187, `feesHist` — lines 202-213: write their chart
  when `Fee_Info` exists, else print (`feesHist` has no else-print);
* `levels` — lines 219-253: add `Level_Group` to `df` and write the chart
  when `Program_Level` exists, else print;
* `companies` — lines 259-289: index `df["Corporate_Partners"]` (raising
  `KeyError` when absent), and die on line 282 when the company list is
  empty, else write the chart;
* `exportCSV` — line 294: write `df_expanded` to the cleaned CSV. -/
def runStage : Stage → Env → Except String Env
  | Stage.explodeCP, e =>
    if "Corporate_Partners" ∈ e.df.cols then
      Except.ok { e with df_expanded := some (df_expanded e.df) }
    else Except.error corporatePartnersKeyError
  | Stage.partners, e =>
    match e.df_expanded with
    | none => Except.error dfExpandedNameError
    | some t =>
      if "College" ∈ t.cols then
        Except.ok { e with files := e.files ++ ["partners_per_college.png"] }
      else Except.ok e
  | Stage.sectors, e =>
    match e.df_expanded with
    | none => Except.error dfExpandedNameError
    | some t =>
      match t.cols.find? isSectorCol with
      | none => Except.ok e
      | some sc =>
        if sectorValuesNonempty t sc then
          Except.ok { e with files := e.files ++ ["sector_frequency.png"] }
        else Except.ok e
  | Stage.tiers, e =>
    if "Tiers_of_Membership" ∈ e.df.cols then
      Except.ok { e with df := addNumTiers e.df,
                         files := e.files ++ ["membership_tier_count_distribution.png"] }
    else Except.ok e
  | Stage.feesBox, e =>
    if "Fee_Info" ∈ e.df.cols then
      Except.ok { e with files := e.files ++ ["membership_fees.png"] }
    else Except.ok e
  | Stage.feesHist, e =>
    if "Fee_Info" ∈ e.df.cols then
      Except.ok { e with files := e.files ++ ["membership_fees_dist.png"] }
    else Except.ok e
  | Stage.levels, e =>
    if "Program_Level" ∈ e.df.cols then
      Except.ok { e with df := addLevelGroup e.df,
                         files := e.files ++ ["dept_vs_ece_comparison.png"] }
    else Except.ok e
  | Stage.companies, e =>
    if "Corporate_Partners" ∈ e.df.cols then
      if companyNamesNonempty e.df then
        Except.ok { e with files := e.files ++ ["company_frequency_distribution.png"] }
      else Except.error "TypeError: range() argument must be int, not float"
    else Except.error "KeyError: 'Corporate_Partners'"
  | Stage.exportCSV, e =>
    match e.df_expanded with
    | none => Except.error dfExpandedNameError
    | some _ => Except.ok { e with files := e.files ++ ["ece_partnerships_cleaned.csv"] }

/-- Run a list of stages; an exception halts the script, leaving the state
reached so far and the error message. -/
def runStages : List Stage → Env → Env × Option String
  | [], e => (e, none)
  | s :: ss, e =>
    match runStage s e with
    | Except.ok e' => runStages ss e'
    | Except.error msg => (e, some msg)

/-- The state right after load & clean: `df` loaded, `df_expanded` unbound,
no file written. -/
def initEnv (t : Table) : Env :=
  { df := t, df_expanded := none, files := [] }

/-- The stages in the order the script executes them. -/
def pipelineStages : List Stage :=
  [Stage.explodeCP, Stage.partners, Stage.sectors, Stage.tiers, Stage.feesBox,
   Stage.feesHist, Stage.levels, Stage.companies, Stage.exportCSV]

/-- A small concrete loaded table with every expected column. -/
def sampleTable : Table :=
  { cols := ["College", "Corporate_Partners", "Tiers_of_Membership", "Fee_Info",
             "Program_Level"],
    rows := [[("College", "Purdue"), ("Corporate_Partners", "Intel, AMD"),
              ("Tiers_of_Membership", "Gold, Silver"), ("Fee_Info", "$1,200 per year"),
              ("Program_Level", "College-wide")]] }

/-- The same stages with the CSV export moved to the front. -/
def exportFirstStages : List Stage :=
  [Stage.exportCSV, Stage.explodeCP, Stage.partners, Stage.sectors, Stage.tiers,
   Stage.feesBox, Stage.feesHist, Stage.levels, Stage.companies]

/-- `splitComma` never returns the empty list of segments. -/
theorem splitComma_ne_nil (cs : List Char) : splitComma cs ≠ [] := by
  cases cs with
  | nil => simp [splitComma]
  | cons c cs =>
    simp only [splitComma]
    split
    · simp
    · cases h : splitComma cs <;> simp

/-- The number of comma-separated segments is the comma count plus one. -/
theorem splitComma_length (cs : List Char) : (splitComma cs).length = cs.count ',' + 1 := by
  induction cs with
  | nil => simp [splitComma]
  | cons c cs ih =>
    by_cases hc : c = ','
    · subst hc
      have hsp : splitComma (',' :: cs) = [] :: splitComma cs := by simp [splitComma]
      rw [hsp, List.length_cons, List.count_cons_self]
      omega
    · simp only [splitComma, if_neg hc]
      cases h : splitComma cs with
      | nil => exact absurd h (splitComma_ne_nil cs)
      | cons s ss =>
        rw [h] at ih
        simp only [List.length_cons] at ih ⊢
        rw [List.count_cons_of_ne (fun hco => hc hco.symm)]
        omega

/-- `Char.ofNat` of a valid scalar value has that value. -/
theorem toNat_ofNat_valid (n : Nat) (h : n < 55296) : (Char.ofNat n).toNat = n := by
  rw [Char.ofNat, dif_pos (Or.inl h)]
  rfl

/-- ASCII lowering maps only `','` to `','`. -/
theorem toLower_eq_comma_iff (c : Char) : Char.toLower c = ',' ↔ c = ',' := by
  constructor
  · intro h
    by_cases hc : c.toNat ≥ 65 ∧ c.toNat ≤ 90
    · rw [Char.toLower] at h
      rw [if_pos hc] at h
      have h44 : (Char.ofNat (c.toNat + 32)).toNat = (',' : Char).toNat := by rw [h]
      rw [toNat_ofNat_valid (c.toNat + 32) (by omega)] at h44
      have : (',' : Char).toNat = 44 := rfl
      omega
    · rw [Char.toLower, if_neg hc] at h
      exact h
  · intro h
    subst h
    rfl

/-- Lower-casing preserves the comma count. -/
theorem count_comma_pyLower (cs : List Char) : (pyLower cs).count ',' = cs.count ',' := by
  induction cs with
  | nil => rfl
  | cons c cs ih =>
    by_cases hc : c = ','
    · subst hc
      have hl : Char.toLower ',' = ',' := rfl
      simp only [pyLower, List.map_cons] at *
      rw [hl, List.count_cons_self, List.count_cons_self, ih]
    · have h1 : Char.toLower c ≠ ',' := fun hh => hc ((toLower_eq_comma_iff c).1 hh)
      simp only [pyLower, List.map_cons] at *
      rw [List.count_cons_of_ne (fun hco => h1 hco.symm),
        List.count_cons_of_ne (fun hco => hc hco.symm), ih]

/-- C1: the fee parser maps `"$1,200 per year"` to `1200.0`,
`"Contact for pricing"` to a missing value, and `"25000"` to `25000.0`. -/
theorem C1_parse_fee_examples :
    Boxplot.parse_fee (some "$1,200 per year") = some 1200
      ∧ Boxplot.parse_fee (some "Contact for pricing") = none
      ∧ Boxplot.parse_fee (some "25000") = some 25000 := by
  refine ⟨by decide, by decide, by decide⟩

/-- C5: the `parse_fee` defined inside the box-plot stage and the `parse_fee`
defined before the histogram stage compute the same result on every input. -/
theorem C5_parse_fee_stages_agree :
    ∀ v : Option String, Boxplot.parse_fee v = Histogram.parse_fee v :=
  fun _ => rfl

/-- C6: the column-name cleaner maps `" College \n"` to `"College"` and
`"Fee Info"` to `"Fee_Info"` (trim, collapse newline runs, spaces to
underscores). -/
theorem C6_clean_column_name :
    cleanColumnName " College \n" = "College" ∧ cleanColumnName "Fee Info" = "Fee_Info" := by
  refine ⟨by decide, by decide⟩

/-- C7: the tier counter maps `"Bronze, Silver, Gold"` to `3`, any comma-free
string to `1`, and in general a non-missing input to its number of
comma-separated segments (comma count plus one). -/
theorem C7_extract_num_tiers :
    extract_num_tiers (some "Bronze, Silver, Gold") = some 3
      ∧ (∀ s : String, s.data.count ',' = 0 → extract_num_tiers (some s) = some 1)
      ∧ (∀ s : String, extract_num_tiers (some s) = some (s.data.count ',' + 1)) := by
  have hgen : ∀ s : String, extract_num_tiers (some s) = some (s.data.count ',' + 1) := by
    intro s
    simp only [extract_num_tiers, splitComma_length, count_comma_pyLower]
  refine ⟨by decide, ?_, hgen⟩
  intro s hs
  rw [hgen s, hs]

/-- Witness for C7: a concrete comma-free string is counted as one tier. -/
theorem C7_extract_num_tiers_witness :
    extract_num_tiers (some "Gold only") = some 1 :=
  C7_extract_num_tiers.2.1 "Gold only" (by decide)

/-- C8: the program-level categorizer returns `"ECE Programs"` exactly when
the lower-cased text of the value contains `"college"`, and the departmental
label otherwise. -/
theorem C8_categorize_level (v : Option String) :
    (containsSub "college".data (pyLower (pyStr v).data) = true →
        categorize_level v = "ECE Programs")
      ∧ (containsSub "college".data (pyLower (pyStr v).data) = false →
        categorize_level v = "Departmental / General College Programs") := by
  constructor
  · intro h
    simp only [categorize_level, h, if_pos]
  · intro h
    simp only [categorize_level, h]
    simp

/-- Witness for C8: one value containing "college" (case-insensitively) and
one value not containing it. -/
theorem C8_categorize_level_witness :
    categorize_level (some "College-wide program") = "ECE Programs"
      ∧ categorize_level (some "EE Department") = "Departmental / General College Programs" :=
  ⟨(C8_categorize_level (some "College-wide program")).1 (by decide),
   (C8_categorize_level (some "EE Department")).2 (by decide)⟩

/-- Reduction of `searchDigits27` on a cons cell. -/
theorem searchDigits27_cons (c : Char) (cs : List Char) :
    searchDigits27 (c :: cs) =
      if c.isDigit && ((cs.head?.map Char.isDigit).getD false) then
        some (((c :: cs).takeWhile (fun x => x.isDigit)).take 7)
      else searchDigits27 cs := by
  cases cs <;> rfl

/-- A successful `\d{2,7}` search returns a non-empty all-digit group. -/
theorem searchDigits27_isSome_all (cs : List Char) :
    ∀ g, searchDigits27 cs = some g → g ≠ [] ∧ g.all (fun c => c.isDigit) = true := by
  induction cs with
  | nil => intro g h; simp [searchDigits27] at h
  | cons c cs ih =>
    intro g h
    rw [searchDigits27_cons] at h
    split at h
    · rename_i hcond
      rw [Bool.and_eq_true] at hcond
      have hc : c.isDigit = true := hcond.1
      injection h with hg
      subst hg
      rw [List.takeWhile_cons_of_pos hc]
      constructor
      · simp
      · rw [List.all_eq_true]
        intro x hx
        have hx' := List.mem_of_mem_take hx
        rcases List.mem_cons.1 hx' with hx1 | hx2
        · subst hx1; exact hc
        · exact List.mem_takeWhile_imp hx2
    · exact ih g h

/-- The `\d{2,7}` search fails exactly when no two consecutive digits occur. -/
theorem searchDigits27_eq_none_iff (cs : List Char) :
    searchDigits27 cs = none ↔ hasTwoConsecutiveDigits cs = false := by
  induction cs with
  | nil => simp [searchDigits27, hasTwoConsecutiveDigits]
  | cons c cs ih =>
    cases cs with
    | nil => simp [searchDigits27, hasTwoConsecutiveDigits]
    | cons d rest =>
      rw [searchDigits27_cons]
      simp only [List.head?_cons, Option.map_some', Option.getD_some]
      by_cases hcd : (c.isDigit && d.isDigit) = true
      · simp [hasTwoConsecutiveDigits, hcd]
      · have hcd' : (c.isDigit && d.isDigit) = false := by
          cases hv : (c.isDigit && d.isDigit) with
          | false => rfl
          | true => exact absurd hv hcd
        rw [if_neg (by rw [hcd']; exact Bool.false_ne_true)]
        rw [show hasTwoConsecutiveDigits (c :: d :: rest)
            = ((c.isDigit && d.isDigit) || hasTwoConsecutiveDigits (d :: rest)) from rfl]
        rw [hcd', Bool.false_or]
        exact ih

/-- A digit-free block in front does not change the search result. -/
theorem searchDigits27_append_of_no_digits (pre l : List Char)
    (h : ∀ c ∈ pre, c.isDigit = false) :
    searchDigits27 (pre ++ l) = searchDigits27 l := by
  induction pre with
  | nil => rfl
  | cons p pre ih =>
    have hp : p.isDigit = false := h p (List.mem_cons_self p pre)
    rw [List.cons_append, searchDigits27_cons,
      if_neg (by rw [hp, Bool.false_and]; exact Bool.false_ne_true)]
    exact ih (fun c hc => h c (List.mem_cons_of_mem p hc))

/-- `takeWhile` passes a block that satisfies the predicate throughout. -/
theorem takeWhile_append_of_all (p : Char → Bool) (run rest : List Char)
    (h : ∀ c ∈ run, p c = true) :
    (run ++ rest).takeWhile p = run ++ rest.takeWhile p := by
  induction run with
  | nil => rfl
  | cons a run ih =>
    have ha : p a = true := h a (List.mem_cons_self a run)
    rw [List.cons_append, List.takeWhile_cons_of_pos ha,
      ih (fun c hc => h c (List.mem_cons_of_mem a hc)), List.cons_append]

/-- On a leading digit run longer than 7, the search matches its first 7
digits. -/
theorem searchDigits27_long_run (run rest : List Char)
    (hd : ∀ c ∈ run, c.isDigit = true) (hl : 7 < run.length) :
    searchDigits27 (run ++ rest) = some (run.take 7) := by
  cases run with
  | nil => simp at hl
  | cons a run' =>
    cases run' with
    | nil => simp at hl
    | cons b run'' =>
      have ha : a.isDigit = true := hd a (by simp)
      have hb : b.isDigit = true := hd b (by simp)
      rw [List.cons_append, searchDigits27_cons]
      rw [if_pos (by simp [ha, hb])]
      show some (List.take 7 (List.takeWhile (fun x => x.isDigit)
          ((a :: b :: run'') ++ rest))) = some (List.take 7 (a :: b :: run''))
      rw [takeWhile_append_of_all _ _ _ hd, List.take_append_eq_append_take]
      rw [show 7 - (a :: b :: run'').length = 0 from by
        simp only [List.length_cons] at hl ⊢; omega]
      simp

/-- When the regex finds no match, `parse_fee` yields the missing value. -/
theorem parse_fee_none_of_no_match (s : String)
    (h : searchDigits27 (stripCommas s.data) = none) :
    Boxplot.parse_fee (some s) = none := by
  simp only [Boxplot.parse_fee, h]

/-- When the regex finds a match, the `float` conversion always succeeds and
`parse_fee` returns the matched value: the `except ValueError` branch is
unreachable. -/
theorem parse_fee_some_of_match (s : String) (g : List Char)
    (h : searchDigits27 (stripCommas s.data) = some g) :
    Boxplot.parse_fee (some s) = some (natOfDigits g) := by
  obtain ⟨hne, hall⟩ := searchDigits27_isSome_all _ g h
  simp only [Boxplot.parse_fee, h, pyFloatOfDigits, if_pos (And.intro hne hall)]

/-- C4: `parse_fee` never propagates an exception: with no numeric pattern it
returns the missing value, and a matched pattern always converts, so the
`ValueError` fallback to a missing value is the only other exit; a missing
input also maps to a missing value. -/
theorem C4_parse_fee_never_raises (s : String) :
    (searchDigits27 (stripCommas s.data) = none → Boxplot.parse_fee (some s) = none)
      ∧ (∀ g, searchDigits27 (stripCommas s.data) = some g →
          Boxplot.parse_fee (some s) = some (natOfDigits g))
      ∧ Boxplot.parse_fee none = none := by
  exact ⟨parse_fee_none_of_no_match s, fun g hg => parse_fee_some_of_match s g hg, rfl⟩

/-- Witness for C4: a digit-free input yields a missing value; an input whose
match is `"4500"` yields `4500`. -/
theorem C4_parse_fee_never_raises_witness :
    Boxplot.parse_fee (some "no digits here") = none
      ∧ Boxplot.parse_fee (some "fee: 4500 dollars") = some (natOfDigits "4500".data) :=
  ⟨(C4_parse_fee_never_raises "no digits here").1 (by decide),
   (C4_parse_fee_never_raises "fee: 4500 dollars").2.1 "4500".data (by decide)⟩

/-- C10 counterexample: `"1,2"` contains no run of two consecutive digits,
yet `parse_fee` returns `12.0`, not a missing value — commas are removed
before the regex runs. -/
theorem C10_counterexample :
    hasTwoConsecutiveDigits "1,2".data = false
      ∧ Boxplot.parse_fee (some "1,2") = some 12 := by
  exact ⟨by decide, by decide⟩

/-- C10 (amended): after commas are removed, an input with no run of at least
two consecutive digits parses to a missing value, and an input whose first
digit run is longer than seven digits parses to the number formed by the
first seven digits of that run. -/
theorem C10_parse_fee_digit_window (s : String) :
    (hasTwoConsecutiveDigits (stripCommas s.data) = false →
        Boxplot.parse_fee (some s) = none)
      ∧ (∀ pre run rest, stripCommas s.data = pre ++ (run ++ rest) →
          (∀ c ∈ pre, c.isDigit = false) → (∀ c ∈ run, c.isDigit = true) →
          7 < run.length →
          Boxplot.parse_fee (some s) = some (natOfDigits (run.take 7))) := by
  constructor
  · intro h
    exact parse_fee_none_of_no_match s
      ((searchDigits27_eq_none_iff (stripCommas s.data)).2 h)
  · intro pre run rest heq hpre hrun hlen
    have hs : searchDigits27 (stripCommas s.data) = some (run.take 7) := by
      rw [heq, searchDigits27_append_of_no_digits pre _ hpre,
        searchDigits27_long_run run rest hrun hlen]
    exact parse_fee_some_of_match s (run.take 7) hs

/-- Witness for C10: `"$5"` yields a missing value; `"123456789"` yields the
value of its first seven digits, `1234567`. -/
theorem C10_parse_fee_digit_window_witness :
    Boxplot.parse_fee (some "$5") = none
      ∧ Boxplot.parse_fee (some "123456789") = some (natOfDigits ("123456789".data.take 7)) :=
  ⟨(C10_parse_fee_digit_window "$5").1 (by decide),
   (C10_parse_fee_digit_window "123456789").2 [] "123456789".data []
     (by decide) (by decide) (by decide) (by decide)⟩

/-- Writing a column twice keeps only the second value. -/
theorem setCell_setCell (r : Row) (c v w : String) :
    setCell (setCell r c v) c w = setCell r c w := by
  induction r with
  | nil => rfl
  | cons kv r ih =>
    show (if (if kv.1 == c then (kv.1, v) else kv).1 == c then
            ((if kv.1 == c then (kv.1, v) else kv).1, w)
          else (if kv.1 == c then (kv.1, v) else kv)) :: setCell (setCell r c v) c w
        = (if kv.1 == c then (kv.1, w) else kv) :: setCell r c w
    rw [ih]
    by_cases hb : (kv.1 == c) = true
    · simp [hb]
    · simp [hb]

/-- Reading back a written column, when the column key is present (its
original cell is not the absent-key default). -/
theorem lookupCell_setCell_self (r : Row) (c : String)
    (h : lookupCell r c ≠ "nan") (v : String) :
    lookupCell (setCell r c v) c = v := by
  induction r with
  | nil => exact absurd rfl h
  | cons kv r ih =>
    by_cases hb : (kv.1 == c) = true
    · have h1 : setCell (kv :: r) c v = (kv.1, v) :: setCell r c v := by
        unfold setCell
        rw [List.map_cons, if_pos hb]
      rw [h1]
      unfold lookupCell
      rw [List.find?_cons_of_pos _ (by exact hb)]
    · have h1 : setCell (kv :: r) c v = kv :: setCell r c v := by
        unfold setCell
        rw [List.map_cons, if_neg hb]
      have h2 : lookupCell (kv :: r) c = lookupCell r c := by
        unfold lookupCell
        rw [List.find?_cons_of_neg _ (by exact hb)]
      rw [h1]
      have h3 : lookupCell (kv :: setCell r c v) c = lookupCell (setCell r c v) c := by
        unfold lookupCell
        rw [List.find?_cons_of_neg _ (by exact hb)]
      rw [h3]
      exact ih (h2 ▸ h)

/-- Writing one column leaves every other column unchanged. -/
theorem lookupCell_setCell_of_ne (r : Row) (c c' v : String) (h : c' ≠ c) :
    lookupCell (setCell r c v) c' = lookupCell r c' := by
  induction r with
  | nil => rfl
  | cons kv r ih =>
    by_cases hb : (kv.1 == c) = true
    · have hkv : kv.1 = c := by exact beq_iff_eq.1 hb
      have hb' : ¬((kv.1 == c') = true) := by
        rw [hkv]
        intro hcc
        exact h (beq_iff_eq.1 hcc).symm
      have h1 : setCell (kv :: r) c v = (kv.1, v) :: setCell r c v := by
        unfold setCell
        rw [List.map_cons, if_pos hb]
      rw [h1]
      unfold lookupCell
      rw [List.find?_cons_of_neg _ (by exact hb'), List.find?_cons_of_neg _ (by exact hb')]
      exact ih
    · have h1 : setCell (kv :: r) c v = kv :: setCell r c v := by
        unfold setCell
        rw [List.map_cons, if_neg hb]
      rw [h1]
      by_cases hb' : (kv.1 == c') = true
      · unfold lookupCell
        rw [List.find?_cons_of_pos _ (by exact hb'), List.find?_cons_of_pos _ (by exact hb')]
      · unfold lookupCell
        rw [List.find?_cons_of_neg _ (by exact hb'), List.find?_cons_of_neg _ (by exact hb')]
        exact ih

/-- The explode step distributes over splitting the row list. -/
theorem df_expanded_rows_append (cols : List String) (rs1 rs2 : List Row) :
    (df_expanded ⟨cols, rs1 ++ rs2⟩).rows
      = (df_expanded ⟨cols, rs1⟩).rows ++ (df_expanded ⟨cols, rs2⟩).rows := by
  simp [df_expanded, stripPartnersCol, explodeRows]

/-- C2: a row whose `Corporate_Partners` cell is `"A, B, C"` explodes into
exactly three rows, one per trimmed partner value, and writing the partner
column reaches that column and leaves every other column unchanged. -/
theorem C2_explode_row (cols : List String) (pre post : List Row) (r : Row)
    (hr : lookupCell r "Corporate_Partners" = "A, B, C") :
    ((df_expanded ⟨cols, pre ++ r :: post⟩).rows
      = (df_expanded ⟨cols, pre⟩).rows
        ++ ([setCell r "Corporate_Partners" "A",
             setCell r "Corporate_Partners" "B",
             setCell r "Corporate_Partners" "C"]
            ++ (df_expanded ⟨cols, post⟩).rows))
      ∧ (∀ x, lookupCell (setCell r "Corporate_Partners" x) "Corporate_Partners" = x)
      ∧ (∀ c, c ≠ "Corporate_Partners" → ∀ x,
          lookupCell (setCell r "Corporate_Partners" x) c = lookupCell r c) := by
  have hnan : lookupCell r "Corporate_Partners" ≠ "nan" := by
    rw [hr]; decide
  refine ⟨?_, lookupCell_setCell_self r "Corporate_Partners" hnan,
    fun c hc x => lookupCell_setCell_of_ne r "Corporate_Partners" c x hc⟩
  have hmid : (df_expanded ⟨cols, [r]⟩).rows
      = [setCell r "Corporate_Partners" "A",
         setCell r "Corporate_Partners" "B",
         setCell r "Corporate_Partners" "C"] := by
    have hsc : splitComma (("A, B, C" : String).data)
        = [['A'], [' ', 'B'], [' ', 'C']] := by decide
    simp only [df_expanded, explodeRows, stripPartnersCol, List.flatMap_cons,
      List.flatMap_nil, List.append_nil, hr, hsc, List.map_cons, List.map_nil]
    rw [lookupCell_setCell_self r _ hnan, lookupCell_setCell_self r _ hnan,
      lookupCell_setCell_self r _ hnan, setCell_setCell, setCell_setCell, setCell_setCell]
    have e1 : String.mk (pyStrip (String.mk ['A']).data) = "A" := by decide
    have e2 : String.mk (pyStrip (String.mk [' ', 'B']).data) = "B" := by decide
    have e3 : String.mk (pyStrip (String.mk [' ', 'C']).data) = "C" := by decide
    rw [e1, e2, e3]
  have hsplit : pre ++ r :: post = pre ++ ([r] ++ post) := by simp
  rw [hsplit, df_expanded_rows_append, df_expanded_rows_append, hmid]

/-- Witness for C2: a concrete one-row table explodes into the three expected
rows. -/
theorem C2_explode_row_witness :
    (df_expanded ⟨["College", "Corporate_Partners"],
        [[("College", "X"), ("Corporate_Partners", "A, B, C")]]⟩).rows
      = [[("College", "X"), ("Corporate_Partners", "A")],
         [("College", "X"), ("Corporate_Partners", "B")],
         [("College", "X"), ("Corporate_Partners", "C")]] := by
  have h := (C2_explode_row ["College", "Corporate_Partners"] [] []
    [("College", "X"), ("Corporate_Partners", "A, B, C")] (by decide)).1
  rw [show ([] : List Row) ++ [(("College", "X") : String × String),
      ("Corporate_Partners", "A, B, C")] :: [] =
      [[(("College", "X") : String × String), ("Corporate_Partners", "A, B, C")]] from rfl] at h
  rw [h]
  decide

/-- C3: a loaded table without a `Corporate_Partners` column makes the run
abort at the explode step with the descriptive `KeyError`, before any chart
or CSV file has been produced. -/
theorem C3_missing_partner_column_aborts (t : Table)
    (h : "Corporate_Partners" ∉ t.cols) :
    (runStages pipelineStages (initEnv t)).2 = some corporatePartnersKeyError
      ∧ (runStages pipelineStages (initEnv t)).1.files = [] := by
  have h1 : runStage Stage.explodeCP { df := t, df_expanded := none, files := [] }
      = Except.error corporatePartnersKeyError := by
    simp [runStage, h]
  constructor <;> simp [pipelineStages, runStages, initEnv, h1]

/-- Witness for C3: a concrete table lacking the partner column. -/
theorem C3_missing_partner_column_aborts_witness :
    (runStages pipelineStages (initEnv ⟨["College", "Fee_Info"], []⟩)).2
        = some corporatePartnersKeyError
      ∧ (runStages pipelineStages (initEnv ⟨["College", "Fee_Info"], []⟩)).1.files = [] :=
  C3_missing_partner_column_aborts ⟨["College", "Fee_Info"], []⟩ (by decide)

/-- C9 counterexample: the stages are not order-insensitive.  On a table with
every expected column, running in program order succeeds and exports the
cleaned CSV, while the same stages with the CSV export moved first (a
permutation of the stage list) abort with a `NameError` before producing any
file. -/
theorem C9_counterexample :
    List.Perm exportFirstStages pipelineStages
      ∧ (runStages pipelineStages (initEnv sampleTable)).2 = none
      ∧ "ece_partnerships_cleaned.csv" ∈ (runStages pipelineStages (initEnv sampleTable)).1.files
      ∧ (runStages exportFirstStages (initEnv sampleTable)).2 = some dfExpandedNameError
      ∧ (runStages exportFirstStages (initEnv sampleTable)).1.files = [] := by
  refine ⟨by decide, by decide, by decide, by decide, by decide⟩

/-- C9 (amended): the partners-per-college, sector-frequency and CSV-export
stages read the exploded table `df_expanded` produced by the explode stage
and abort with a `NameError` when it is unbound, so they depend on the
explode stage's output; the tier, fee (both), program-level and company
stages do not read `df_expanded` at all — their result is the same whatever
that binding holds. -/
theorem C9_stage_dependencies (e : Env) :
    (e.df_expanded = none →
        runStage Stage.partners e = Except.error dfExpandedNameError
          ∧ runStage Stage.sectors e = Except.error dfExpandedNameError
          ∧ runStage Stage.exportCSV e = Except.error dfExpandedNameError)
      ∧ (∀ s ∈ [Stage.tiers, Stage.feesBox, Stage.feesHist, Stage.levels,
            Stage.companies],
          ∀ te : Option Table,
            runStage s { df := e.df, df_expanded := te, files := e.files }
              = (runStage s { df := e.df, df_expanded := none, files := e.files }).map
                  (fun e' => { e' with df_expanded := te })) := by
  constructor
  · intro h
    refine ⟨?_, ?_, ?_⟩ <;> simp [runStage, h]
  · intro s hs te
    simp only [List.mem_cons, List.not_mem_nil, or_false] at hs
    rcases hs with rfl | rfl | rfl | rfl | rfl
    · by_cases hc : "Tiers_of_Membership" ∈ e.df.cols <;> simp [runStage, hc, Except.map]
    · by_cases hc : "Fee_Info" ∈ e.df.cols <;> simp [runStage, hc, Except.map]
    · by_cases hc : "Fee_Info" ∈ e.df.cols <;> simp [runStage, hc, Except.map]
    · by_cases hc : "Program_Level" ∈ e.df.cols <;> simp [runStage, hc, Except.map]
    · by_cases hc : "Corporate_Partners" ∈ e.df.cols
      · by_cases hn : companyNamesNonempty e.df = true <;>
          simp [runStage, hc, hn, Except.map]
      · simp [runStage, hc, Except.map]

/-- Witness for C9 (amended): on the sample table, the export stage fails
with `df_expanded` unbound, and the box-plot fee stage ignores the
`df_expanded` binding. -/
theorem C9_stage_dependencies_witness :
    runStage Stage.exportCSV (initEnv sampleTable) = Except.error dfExpandedNameError
      ∧ runStage Stage.feesBox
            { df := (initEnv sampleTable).df, df_expanded := some sampleTable,
              files := (initEnv sampleTable).files }
          = (runStage Stage.feesBox
                { df := (initEnv sampleTable).df, df_expanded := none,
                  files := (initEnv sampleTable).files }).map
              (fun e' => { e' with df_expanded := some sampleTable }) :=
  ⟨((C9_stage_dependencies (initEnv sampleTable)).1 rfl).2.2,
   (C9_stage_dependencies (initEnv sampleTable)).2 Stage.feesBox (by decide)
     (some sampleTable)⟩
